import Mathlib

/-!
Verification of the typed artifact Channel core (tfx/types/channel.py) and
the AI-Platform trainer executor adapter
(tfx/extensions/google_cloud_ai_platform/trainer/executor.py).

The Python classes are shallowly embedded as Lean structures and functions.
Fallible construction (Python `raise`) is modelled with `Except`: an
`Except.error` value corresponds to an exception escaping the constructor,
so no (partially constructed) object is produced on the error path.
-/

/-- An artifact type descriptor: a subclass of `tfx.types.artifact.Artifact`,
viewed through the only capability Channel uses, its class-level `TYPE_NAME`
string. -/
structure ArtifactTypeDescriptor where
  type_name : String
deriving DecidableEq, Repr

/-- An artifact instance, external to the Channel module: it reports a
`type_name` and carries an opaque payload (`uri`) that distinguishes
instances with the same type. -/
structure Artifact where
  type_name : String
  uri : String
deriving DecidableEq, Repr

/-- The `component_id` / `key` record `ChannelProducerInfo` from
channel.py. -/
structure ProducerInfo where
  component_id : String
  key : String
deriving DecidableEq, Repr

/-- Modelled from the spec: the equality relation on `ChannelProducerInfo`
values.  The source class defines no `__eq__` of its own and inherits its
equality behaviour from `json_utils.Jsonable`, whose file is not among the
shown sources; the spec states that two ProducerInfo values are considered
equal iff both fields match, which is the field-wise relation written
here. -/
def ProducerInfo.eq (p q : ProducerInfo) : Prop :=
  p.component_id = q.component_id ∧ p.key = q.key

/-- The `type` argument passed to the Channel constructor: Python allows
`None` (absent), an arbitrary non-descriptor value (not a class, or a class
that is not a subclass of `Artifact`), or a valid Artifact subclass. -/
inductive TypeArgument where
  | absent
  | invalid
  | descriptor (d : ArtifactTypeDescriptor)
deriving DecidableEq, Repr

/-- `inspect.isclass(type) and issubclass(type, Artifact)` succeeds exactly
when a valid descriptor was supplied; returns it. -/
def toDescriptor : TypeArgument → Option ArtifactTypeDescriptor
  | .descriptor d => some d
  | _ => none

/-- Errors raised by channel.py.  The source raises `ValueError` at two
distinct sites with distinct messages; the spec names them
`ConfigurationError` (invalid `type` argument) and `TypeMismatchError`
(artifact/type disagreement), so the two raise sites are distinguished here
by constructor. -/
inductive ChannelError where
  | configurationError (msg : String)
  | typeMismatchError (msg : String)
deriving DecidableEq, Repr

/-- A successfully constructed Channel: declared type, stored artifact
sequence (`self._artifacts`), and the mutable `producer_info` attribute. -/
structure Channel where
  type : ArtifactTypeDescriptor
  artifacts : List Artifact
  producer_info : Option ProducerInfo
deriving DecidableEq, Repr

/-- `Channel.type_name` property: `self.type.TYPE_NAME`. -/
def Channel.type_name (c : Channel) : String :=
  c.type.type_name

/-- The message raised by `Channel._validate_type` on a mismatching
artifact: the format string mentions only the channel type name. -/
def mismatchMsg (tn : String) : String :=
  "Artifacts provided do not match Channel\x27s artifact type " ++ tn

/-- The message raised when the `type` argument is not an Artifact
subclass (the `%r` rendering of the offending value is elided). -/
def badTypeMsg : String :=
  "Argument \"type\" of Channel constructor must be a subclass of tfx.Artifact."

/-- The loop body of `Channel._validate_type`: walks the artifact sequence
and raises on the first artifact whose `type_name` differs from the
channel type name; returns the message of the raised error, if any. -/
def validateTypeLoop (tn : String) : List Artifact → Option String
  | [] => none
  | a :: rest =>
    if a.type_name ≠ tn then some (mismatchMsg tn)
    else validateTypeLoop tn rest

/-- `Channel.__init__`: check the `type` argument, store
`artifacts or []`, run `_validate_type`, then store `producer_info`. -/
def Channel.init (t : TypeArgument) (artifacts : Option (List Artifact))
    (producer_info : Option ProducerInfo) : Except ChannelError Channel :=
  match toDescriptor t with
  | none => .error (.configurationError badTypeMsg)
  | some d =>
    let arts := artifacts.getD []
    match validateTypeLoop d.type_name arts with
    | some msg => .error (.typeMismatchError msg)
    | none => .ok { type := d, artifacts := arts, producer_info := producer_info }

/-- `Channel.get`: returns `self._artifacts` (the stored sequence, viewed
here at the value level; aliasing of the underlying container is treated in
the heap model below). -/
def Channel.get (c : Channel) : List Artifact :=
  c.artifacts

/-- Assignment to the public mutable attribute `channel.producer_info`:
plain attribute write, no guard. -/
def Channel.setProducerInfo (c : Channel) (p : Option ProducerInfo) : Channel :=
  { c with producer_info := p }

/-- Any sequence of post-construction `producer_info` assignments (the only
mutation the module performs on a Channel). -/
def applyBindings (c : Channel) (ps : List (Option ProducerInfo)) : Channel :=
  ps.foldl Channel.setProducerInfo c

/-- Does `s` start with `pat`? (character lists) -/
def startsWithL : List Char → List Char → Bool
  | [], _ => true
  | _ :: _, [] => false
  | p :: ps, s :: ss => p == s && startsWithL ps ss

/-- Does `pat` occur as a contiguous substring of the character list? -/
def containsL (pat : List Char) : List Char → Bool
  | [] => startsWithL pat []
  | c :: rest => startsWithL pat (c :: rest) || containsL pat rest

/-- Substring test on strings, used to state what an error message
"includes". -/
def strContains (s pat : String) : Bool :=
  containsL pat.toList s.toList

/-- A heap of Python list objects, for the aliasing behaviour of
`Channel.get`: each list object is a slot, a reference is an index. -/
abbrev Heap := List (List Artifact)

/-- Dereference a list object. -/
def heapRead (h : Heap) (r : Nat) : List Artifact :=
  h.getD r []

/-- In-place mutation of a list object (e.g. `lst.append(a)` performed by a
caller holding a reference to it). -/
def heapAppend (h : Heap) (r : Nat) (a : Artifact) : Heap :=
  h.set r (heapRead h r ++ [a])

/-- A Channel in the heap model: `artifactsRef` is the reference stored in
`self._artifacts`. -/
structure ChannelS where
  type : ArtifactTypeDescriptor
  artifactsRef : Nat
  producer_info : Option ProducerInfo
deriving DecidableEq, Repr

/-- `Channel.__init__` in the heap model.  `self._artifacts = artifacts or
[]` stores the caller-supplied list object itself when it is truthy
(non-empty), and a freshly allocated empty list when the argument is absent
or empty. -/
def ChannelS.init (h : Heap) (t : TypeArgument) (artifactsArg : Option Nat)
    (producer_info : Option ProducerInfo) :
    Except ChannelError (ChannelS × Heap) :=
  match toDescriptor t with
  | none => .error (.configurationError badTypeMsg)
  | some d =>
    let rh :=
      match artifactsArg with
      | some r => if heapRead h r = [] then (h.length, h ++ [[]]) else (r, h)
      | none => (h.length, h ++ [[]])
    match validateTypeLoop d.type_name (heapRead rh.2 rh.1) with
    | some msg => .error (.typeMismatchError msg)
    | none =>
      .ok ({ type := d, artifactsRef := rh.1, producer_info := producer_info }, rh.2)

/-- `Channel.get` in the heap model: returns `self._artifacts`, i.e. the
stored reference itself, not a copy. -/
def ChannelS.get (c : ChannelS) : Nat :=
  c.artifactsRef

/-- The artifact sequence a read of the channel observes in heap `h`. -/
def ChannelS.observed (c : ChannelS) (h : Heap) : List Artifact :=
  heapRead h c.get

/-- Key in `custom_config` holding the AI Platform training arguments. -/
def TRAINING_ARGS_KEY : String := "ai_platform_training_args"

/-- Key in `custom_config` holding an optional job id. -/
def JOB_ID_KEY : String := "ai_platform_training_job_id"

/-- A Python value as stored in the `Dict[Text, Any]` configuration
mappings the executor probes: `None`, a nested string-keyed dict, or some
other object (opaque here). -/
inductive ConfigValue where
  | pynone
  | pydict (entries : List (String × ConfigValue))
  | pyobj (v : Nat)

/-- Python `d.get(k, default)`: the stored value when the key is present
(even if that value is `None`), else the default. -/
def dictGetD (d : List (String × ConfigValue)) (k : String)
    (dflt : ConfigValue) : ConfigValue :=
  match d.find? (fun e => e.1 == k) with
  | some e => e.2
  | none => dflt

/-- Python `d.get(k)`, i.e. `d.get(k, None)`. -/
def dictGet (d : List (String × ConfigValue)) (k : String) : ConfigValue :=
  dictGetD d k .pynone

/-- Key-presence test, `k in d`. -/
def dictHasKey (d : List (String × ConfigValue)) (k : String) : Bool :=
  (d.find? (fun e => e.1 == k)).isSome

/-- Ways `Executor.Do` can fail: the explicit `raise ValueError`; an
`AttributeError` when `.get` is called on a non-dict `custom_config`
value; `keyError` is the error a `d[k]` subscript lookup would raise on a
missing key — it is in the error universe so that its absence from `Do`'s
behaviours can be stated, since the source only ever uses `.get`. -/
inductive ExecError where
  | valueError (msg : String)
  | attributeError (msg : String)
  | keyError (msg : String)
deriving DecidableEq, Repr

/-- The error message for a missing training-arguments key. -/
def missingArgsMsg : String :=
  "\x27" ++ TRAINING_ARGS_KEY ++ "\x27 not found in custom_config."

/-- The remote job-submission request `runner.start_aip_training` is
invoked with when `Executor.Do` reaches it. -/
structure AipTrainingRequest where
  input_dict : List (String × List Artifact)
  output_dict : List (String × List Artifact)
  exec_properties : List (String × ConfigValue)
  executor_class_path : String
  training_inputs : ConfigValue
  job_id : ConfigValue

/-- Python `v is None`. -/
def isNone : ConfigValue → Bool
  | .pynone => true
  | _ => false

/-- `Executor.Do` of the AI-Platform trainer executor: read
`custom_config` from `exec_properties` (defaulting to an empty dict),
require the training-arguments entry to be non-None, then submit the
remote job request.  An `Except.ok` value is the request passed to
`runner.start_aip_training`; `Except.error` means `Do` raised before any
submission was attempted. -/
def Executor.Do (input_dict output_dict : List (String × List Artifact))
    (exec_properties : List (String × ConfigValue)) :
    Except ExecError AipTrainingRequest :=
  match dictGetD exec_properties "custom_config" (.pydict []) with
  | .pydict cc =>
    let training_inputs := dictGet cc TRAINING_ARGS_KEY
    if isNone training_inputs then .error (.valueError missingArgsMsg)
    else
      let job_id := dictGet cc JOB_ID_KEY
      .ok { input_dict := input_dict, output_dict := output_dict,
            exec_properties := exec_properties,
            executor_class_path := "tfx.components.trainer.executor.Executor",
            training_inputs := training_inputs, job_id := job_id }
  | _ => .error (.attributeError "object has no attribute get")


theorem validateTypeLoop_eq_none {tn : String} {l : List Artifact} :
    validateTypeLoop tn l = none ↔ ∀ a ∈ l, a.type_name = tn := by
  induction l with
  | nil => simp [validateTypeLoop]
  | cons a rest ih =>
    by_cases h : a.type_name = tn
    · simp [validateTypeLoop, h, ih]
    · simp [validateTypeLoop, h]

theorem validateTypeLoop_eq_some {tn : String} {l : List Artifact} {m : String}
    (h : validateTypeLoop tn l = some m) : m = mismatchMsg tn := by
  induction l with
  | nil => simp [validateTypeLoop] at h
  | cons a rest ih =>
    by_cases ha : a.type_name = tn
    · exact ih (by simpa [validateTypeLoop, ha] using h)
    · simp [validateTypeLoop, ha] at h
      exact h.symm

theorem init_ok_inv {t : TypeArgument} {arts : Option (List Artifact)}
    {p : Option ProducerInfo} {c : Channel}
    (h : Channel.init t arts p = .ok c) :
    toDescriptor t = some c.type ∧ c.artifacts = arts.getD [] ∧
      c.producer_info = p ∧ ∀ a ∈ c.artifacts, a.type_name = c.type_name := by
  unfold Channel.init at h
  cases hd : toDescriptor t with
  | none => simp [hd] at h
  | some d =>
    simp only [hd] at h
    cases hv : validateTypeLoop d.type_name (arts.getD []) with
    | some msg => simp [hv] at h
    | none =>
      simp only [hv] at h
      cases h
      refine ⟨rfl, rfl, rfl, ?_⟩
      exact fun a ha => validateTypeLoop_eq_none.mp hv a ha

theorem applyBindings_artifacts (c : Channel) (ps : List (Option ProducerInfo)) :
    (applyBindings c ps).artifacts = c.artifacts := by
  induction ps generalizing c with
  | nil => rfl
  | cons p rest ih => exact (ih (c.setProducerInfo p)).trans rfl

theorem applyBindings_type (c : Channel) (ps : List (Option ProducerInfo)) :
    (applyBindings c ps).type = c.type := by
  induction ps generalizing c with
  | nil => rfl
  | cons p rest ih => exact (ih (c.setProducerInfo p)).trans rfl

theorem startsWithL_self (p : List Char) : startsWithL p p = true := by
  induction p with
  | nil => rfl
  | cons c cs ih => simp [startsWithL, ih]

theorem containsL_self (p : List Char) : containsL p p = true := by
  cases p with
  | nil => rfl
  | cons c cs => simp [containsL, startsWithL_self]

theorem containsL_append (pat pre : List Char) :
    containsL pat (pre ++ pat) = true := by
  induction pre with
  | nil => simpa using containsL_self pat
  | cons c rest ih => simp [containsL, ih]

theorem strContains_append_right (pre pat : String) :
    strContains (pre ++ pat) pat = true := by
  unfold strContains
  have h : (pre ++ pat).toList = pre.toList ++ pat.toList := by
    simp [String.toList, String.data_append]
  rw [h]
  exact containsL_append pat.toList pre.toList

/-- C1: every artifact in the sequence returned by `get()` of a
successfully constructed Channel reports the channel type name, and this
persists under any sequence of post-construction `producer_info`
assignments — the only post-construction operation the module performs, so
no operation adds artifacts after construction. -/
theorem C1_type_safety (t : TypeArgument) (arts : Option (List Artifact))
    (p : Option ProducerInfo) (ps : List (Option ProducerInfo)) (c : Channel)
    (h : Channel.init t arts p = .ok c) :
    ∀ a ∈ (applyBindings c ps).get, a.type_name = (applyBindings c ps).type_name := by
  intro a ha
  have hinv := (init_ok_inv h).2.2.2
  rw [Channel.get, applyBindings_artifacts] at ha
  rw [Channel.type_name, applyBindings_type]
  exact hinv a ha

theorem C1_type_safety_witness :
    (⟨"Model", "m1"⟩ : Artifact).type_name
      = (applyBindings ⟨⟨"Model"⟩, [⟨"Model", "m1"⟩], none⟩
          [some ⟨"Trainer", "model"⟩]).type_name :=
  C1_type_safety (.descriptor ⟨"Model"⟩) (some [⟨"Model", "m1"⟩]) none
    [some ⟨"Trainer", "model"⟩] ⟨⟨"Model"⟩, [⟨"Model", "m1"⟩], none⟩ rfl
    ⟨"Model", "m1"⟩ (by decide)

/-- C2: constructing a Channel over a valid descriptor with an artifact
sequence containing at least one artifact of a different type name fails
with the type-mismatch error, and no Channel value is produced. -/
theorem C2_mismatch_rejected (t : ArtifactTypeDescriptor) (l : List Artifact)
    (p : Option ProducerInfo) (h : ∃ a ∈ l, a.type_name ≠ t.type_name) :
    (∃ m, Channel.init (.descriptor t) (some l) p
        = .error (.typeMismatchError m)) ∧
    ∀ c, Channel.init (.descriptor t) (some l) p ≠ .ok c := by
  obtain ⟨a, ha, hne⟩ := h
  cases hv : validateTypeLoop t.type_name l with
  | none => exact absurd (validateTypeLoop_eq_none.mp hv a ha) hne
  | some m =>
    have hinit : Channel.init (.descriptor t) (some l) p
        = .error (.typeMismatchError m) := by
      simp [Channel.init, toDescriptor, hv]
    refine ⟨⟨m, hinit⟩, fun c hc => ?_⟩
    rw [hinit] at hc
    exact Except.noConfusion hc

theorem C2_mismatch_rejected_witness :
    (∃ m, Channel.init (.descriptor ⟨"Model"⟩)
        (some [⟨"Model", "m1"⟩, ⟨"Examples", "x"⟩]) none
        = .error (.typeMismatchError m)) ∧
    ∀ c, Channel.init (.descriptor ⟨"Model"⟩)
        (some [⟨"Model", "m1"⟩, ⟨"Examples", "x"⟩]) none ≠ .ok c :=
  C2_mismatch_rejected ⟨"Model"⟩ [⟨"Model", "m1"⟩, ⟨"Examples", "x"⟩] none
    (by decide)

/-- C3: Channel construction fails with the configuration error exactly
when the `type` argument is absent or not a valid artifact-type
descriptor; with a valid descriptor this error is never raised. -/
theorem C3_config_error_iff (t : TypeArgument) (arts : Option (List Artifact))
    (p : Option ProducerInfo) :
    (∃ m, Channel.init t arts p = .error (.configurationError m))
      ↔ toDescriptor t = none := by
  constructor
  · rintro ⟨m, hm⟩
    cases ht : toDescriptor t with
    | none => rfl
    | some d =>
      simp only [Channel.init, ht] at hm
      cases hv : validateTypeLoop d.type_name (arts.getD []) with
      | some msg => simp [hv] at hm
      | none => simp [hv] at hm
  · intro ht
    exact ⟨badTypeMsg, by simp [Channel.init, ht]⟩

/-- C4: constructing a Channel over a descriptor named `N` from artifacts
all reporting `N` succeeds; the resulting channel reports `type_name = N`
and `get()` returns exactly the given sequence, stably across reads. -/
theorem C4_matching_construction (N : String) (l : List Artifact)
    (p : Option ProducerInfo) (h : ∀ a ∈ l, a.type_name = N) :
    ∃ c, Channel.init (.descriptor ⟨N⟩) (some l) p = .ok c ∧
      c.type_name = N ∧ c.get = l ∧ c.get = c.get := by
  have hv : validateTypeLoop N l = none := validateTypeLoop_eq_none.mpr h
  refine ⟨{ type := ⟨N⟩, artifacts := l, producer_info := p }, ?_, rfl, rfl, rfl⟩
  simp [Channel.init, toDescriptor, hv]

theorem C4_matching_construction_witness :
    ∃ c, Channel.init (.descriptor ⟨"Model"⟩)
        (some [⟨"Model", "m1"⟩, ⟨"Model", "m2"⟩]) none = .ok c ∧
      c.type_name = "Model" ∧ c.get = [⟨"Model", "m1"⟩, ⟨"Model", "m2"⟩] ∧
      c.get = c.get :=
  C4_matching_construction "Model" [⟨"Model", "m1"⟩, ⟨"Model", "m2"⟩] none
    (by decide)

/-- C5 counterexample: on a freshly constructed Channel, a second
`producer_info` assignment with a different non-null value succeeds and
replaces the first-bound value — no error is raised and the first value
does not survive, contrary to the claimed single-assignment discipline. -/
theorem C5_counterexample :
    Channel.init (.descriptor ⟨"Model"⟩) none none
        = .ok { type := ⟨"Model"⟩, artifacts := [], producer_info := none } ∧
    (({ type := ⟨"Model"⟩, artifacts := [], producer_info := none } : Channel).setProducerInfo
          (some ⟨"Trainer", "model"⟩)).setProducerInfo (some ⟨"Other", "out"⟩)
      = { type := ⟨"Model"⟩, artifacts := [],
          producer_info := some ⟨"Other", "out"⟩ } ∧
    (⟨"Other", "out"⟩ : ProducerInfo) ≠ ⟨"Trainer", "model"⟩ :=
  ⟨rfl, rfl, by decide⟩

/-- C5 (amended): binding `producer_info` once succeeds and is observable
via subsequent reads; a second binding with a different non-null value
also succeeds and overwrites the first, leaving the artifact sequence and
type name untouched — the attribute write is unguarded. -/
theorem C5_rebinding_overwrites (c : Channel) (p q : ProducerInfo) :
    (c.setProducerInfo (some p)).producer_info = some p ∧
    ((c.setProducerInfo (some p)).setProducerInfo (some q)).producer_info
      = some q ∧
    ((c.setProducerInfo (some p)).setProducerInfo (some q)).get = c.get ∧
    ((c.setProducerInfo (some p)).setProducerInfo (some q)).type_name
      = c.type_name :=
  ⟨rfl, rfl, rfl, rfl⟩

/-- C6 counterexample: a Channel built over a caller-supplied non-empty
list stores that list object itself; appending an artifact through the
handle returned by `get()` changes what a subsequent `get()` read
observes — the returned handle is not a read-only view. -/
theorem C6_counterexample :
    ChannelS.init [[⟨"Model", "m1"⟩]] (.descriptor ⟨"Model"⟩) (some 0) none
      = .ok ({ type := ⟨"Model"⟩, artifactsRef := 0, producer_info := none },
             [[⟨"Model", "m1"⟩]]) ∧
    ChannelS.observed
        { type := ⟨"Model"⟩, artifactsRef := 0, producer_info := none }
        (heapAppend [[⟨"Model", "m1"⟩]]
          (ChannelS.get
            { type := ⟨"Model"⟩, artifactsRef := 0, producer_info := none })
          ⟨"Model", "m2"⟩)
      ≠ ChannelS.observed
          { type := ⟨"Model"⟩, artifactsRef := 0, producer_info := none }
          [[⟨"Model", "m1"⟩]] :=
  ⟨rfl, by decide⟩

theorem getD_set_self (h : Heap) (r : Nat) (v : List Artifact)
    (hr : r < h.length) : (h.set r v).getD r [] = v := by
  induction h generalizing r with
  | nil => simp at hr
  | cons x xs ih =>
    cases r with
    | zero => rfl
    | succ n => exact ih n (by simpa using hr)

/-- C6 (amended): `get()` returns the stored reference to the internal
collection itself, and a mutation performed through that returned handle
is observed by every subsequent `get()` read of the same Channel. -/
theorem C6_get_aliases_internal (h : Heap) (c : ChannelS) (a : Artifact)
    (hr : c.artifactsRef < h.length) :
    ChannelS.get c = c.artifactsRef ∧
    ChannelS.observed c (heapAppend h (ChannelS.get c) a)
      = ChannelS.observed c h ++ [a] := by
  refine ⟨rfl, ?_⟩
  unfold ChannelS.observed heapAppend heapRead ChannelS.get
  exact getD_set_self h c.artifactsRef _ hr

theorem C6_get_aliases_internal_witness :
    ChannelS.get { type := ⟨"Model"⟩, artifactsRef := 0, producer_info := none }
      = 0 ∧
    ChannelS.observed
        { type := ⟨"Model"⟩, artifactsRef := 0, producer_info := none }
        (heapAppend [[⟨"Model", "m1"⟩]]
          (ChannelS.get
            { type := ⟨"Model"⟩, artifactsRef := 0, producer_info := none })
          ⟨"Examples", "x"⟩)
      = ChannelS.observed
          { type := ⟨"Model"⟩, artifactsRef := 0, producer_info := none }
          [[⟨"Model", "m1"⟩]] ++ [⟨"Examples", "x"⟩] :=
  C6_get_aliases_internal [[⟨"Model", "m1"⟩]]
    { type := ⟨"Model"⟩, artifactsRef := 0, producer_info := none }
    ⟨"Examples", "x"⟩ (by decide)

/-- C7 counterexample: the mismatch error raised for
`Channel(type=Model, artifacts=[m1, x])` with `x.type_name = "Examples"`
mentions the declared type name "Model" but does not mention the
mismatched artifact type name "Examples". -/
theorem C7_counterexample :
    Channel.init (.descriptor ⟨"Model"⟩)
        (some [⟨"Model", "m1"⟩, ⟨"Examples", "x"⟩]) none
      = .error (.typeMismatchError (mismatchMsg "Model")) ∧
    strContains (mismatchMsg "Model") "Model" = true ∧
    strContains (mismatchMsg "Model") "Examples" = false :=
  ⟨rfl, by decide, by decide⟩

/-- C7 (amended): every failed construction due to an artifact type
mismatch raises an error whose message includes the Channel declared type
name (the message does not in general include the mismatched artifact
type name). -/
theorem C7_message_names_channel_type (t : ArtifactTypeDescriptor)
    (arts : Option (List Artifact)) (p : Option ProducerInfo) (m : String)
    (h : Channel.init (.descriptor t) arts p = .error (.typeMismatchError m)) :
    strContains m t.type_name = true := by
  simp only [Channel.init, toDescriptor] at h
  cases hv : validateTypeLoop t.type_name (arts.getD []) with
  | none => rw [hv] at h; simp at h
  | some msg =>
    rw [hv] at h
    have hmsg : msg = m := by
      have := Except.error.inj h
      exact ChannelError.typeMismatchError.inj this
    have hm : m = mismatchMsg t.type_name := hmsg ▸ validateTypeLoop_eq_some hv
    rw [hm, mismatchMsg]
    exact strContains_append_right _ _

theorem C7_message_names_channel_type_witness :
    strContains (mismatchMsg "Model") "Model" = true :=
  C7_message_names_channel_type ⟨"Model"⟩ (some [⟨"Examples", "x"⟩]) none
    (mismatchMsg "Model") rfl

/-- C8: two ProducerInfo values are equal (as values of the embedded
record) iff their `component_id` fields match and their `key` fields
match; the field-wise relation is the one modelled from the spec. -/
theorem C8_producerinfo_equality (p q : ProducerInfo) :
    p = q ↔ ProducerInfo.eq p q := by
  cases p
  cases q
  simp [ProducerInfo.eq]

/-- C9 counterexample: a configuration mapping in which the
`ai_platform_training_args` key IS present, but bound to None, makes `Do`
fail with the missing-arguments error instead of submitting a remote job
request — so key presence alone does not imply submission. -/
theorem C9_counterexample :
    dictHasKey [(TRAINING_ARGS_KEY, ConfigValue.pynone)] TRAINING_ARGS_KEY
      = true ∧
    Executor.Do [] []
        [("custom_config",
          ConfigValue.pydict [(TRAINING_ARGS_KEY, ConfigValue.pynone)])]
      = .error (.valueError missingArgsMsg) :=
  ⟨rfl, rfl⟩

/-- C9 (amended): when the training-arguments entry of the configuration
mapping is absent or None, `Do` fails with the configuration error and no
job-submission request is produced; when the entry is present with a
non-None value, `Do` submits the remote job request carrying that value. -/
theorem C9_training_args_gate (ind outd : List (String × List Artifact))
    (ep cc : List (String × ConfigValue))
    (h : dictGetD ep "custom_config" (.pydict []) = .pydict cc) :
    (isNone (dictGet cc TRAINING_ARGS_KEY) = true →
      Executor.Do ind outd ep = .error (.valueError missingArgsMsg)) ∧
    (isNone (dictGet cc TRAINING_ARGS_KEY) = false →
      Executor.Do ind outd ep
        = .ok { input_dict := ind, output_dict := outd, exec_properties := ep,
                executor_class_path :=
                  "tfx.components.trainer.executor.Executor",
                training_inputs := dictGet cc TRAINING_ARGS_KEY,
                job_id := dictGet cc JOB_ID_KEY }) := by
  constructor
  · intro hn
    simp [Executor.Do, h, hn]
  · intro hn
    simp [Executor.Do, h, hn]

theorem C9_training_args_gate_witness :
    Executor.Do [] []
        [("custom_config",
          ConfigValue.pydict [(TRAINING_ARGS_KEY, ConfigValue.pyobj 1)])]
      = .ok { input_dict := [], output_dict := [],
              exec_properties :=
                [("custom_config",
                  ConfigValue.pydict [(TRAINING_ARGS_KEY, ConfigValue.pyobj 1)])],
              executor_class_path :=
                "tfx.components.trainer.executor.Executor",
              training_inputs :=
                dictGet [(TRAINING_ARGS_KEY, ConfigValue.pyobj 1)]
                  TRAINING_ARGS_KEY,
              job_id :=
                dictGet [(TRAINING_ARGS_KEY, ConfigValue.pyobj 1)] JOB_ID_KEY } :=
  (C9_training_args_gate [] []
    [("custom_config",
      ConfigValue.pydict [(TRAINING_ARGS_KEY, ConfigValue.pyobj 1)])]
    [(TRAINING_ARGS_KEY, ConfigValue.pyobj 1)] rfl).2 rfl

/-- C10: when `exec_properties` has no `custom_config` entry at all, `Do`
treats the configuration as an empty mapping: it fails with exactly the
same missing-training-arguments error as an explicitly empty
`custom_config`, and never with a key-lookup error on `custom_config`
itself. -/
theorem C10_missing_custom_config (ind outd : List (String × List Artifact))
    (ep : List (String × ConfigValue))
    (h : dictHasKey ep "custom_config" = false) :
    Executor.Do ind outd ep = .error (.valueError missingArgsMsg) ∧
    Executor.Do ind outd ep
      = Executor.Do ind outd [("custom_config", ConfigValue.pydict [])] ∧
    ∀ m, Executor.Do ind outd ep ≠ .error (.keyError m) := by
  have hfind : ep.find? (fun e => e.1 == "custom_config") = none := by
    unfold dictHasKey at h
    cases hf : ep.find? (fun e => e.1 == "custom_config") with
    | none => rfl
    | some e => rw [hf] at h; simp at h
  have h1 : Executor.Do ind outd ep = .error (.valueError missingArgsMsg) := by
    simp [Executor.Do, dictGet, dictGetD, isNone, hfind]
  refine ⟨h1, ?_, ?_⟩
  · rw [h1]; rfl
  · intro m hm
    rw [h1] at hm
    simp at hm

theorem C10_missing_custom_config_witness :
    Executor.Do [] [] [] = .error (.valueError missingArgsMsg) ∧
    Executor.Do [] [] []
      = Executor.Do [] [] [("custom_config", ConfigValue.pydict [])] ∧
    ∀ m, Executor.Do [] [] [] ≠ .error (.keyError m) :=
  C10_missing_custom_config [] [] [] rfl
